import Mathlib

/-!
Verification of the GPU info query boundary declared in
`src/devices/apple_gpu_darwin.h` of the gotop repository.

The header declares:

  struct apple_gpu_info { char *name; uint64_t total_mem; uint64_t used_mem; int64_t gpu_util; };
  int apple_gpu_get_infos(struct apple_gpu_info **out_infos, int *out_count, char **out_err);
  void apple_gpu_free_infos(struct apple_gpu_info *infos, int count);
  void apple_gpu_free_error(char *err);

Only the header is present in the repository fragment; the implementations of
the three functions are not in `src/`, so their behaviour is modelled from the
specification.  Memory ownership is made explicit: a heap is a list of live
allocation identifiers, allocation prepends fresh identifiers, and releasing an
identifier that is not live (a double free or an invalid free) is the error
outcome `none`.
-/

/-- A heap: the list of currently live allocation identifiers. -/
abbrev Heap := List Nat

/-- Release one allocation.  Succeeds exactly when the identifier is live,
removing one occurrence; releasing a dead identifier is a double/invalid
free and yields `none`. -/
def heapFree (h : Heap) (a : Nat) : Option Heap :=
  if a ∈ h then some (h.erase a) else none

/-- Release a list of allocations in order, failing as soon as one is dead. -/
def freeNames : Heap → List Nat → Option Heap
  | h, [] => some h
  | h, a :: rest =>
    match heapFree h a with
    | some h2 => freeNames h2 rest
    | none => none

/-- The C `int` type: a signed 32-bit integer value. -/
structure CInt where
  val : Int
  ge_min : -(2 ^ 31) ≤ val
  lt_bound : val < 2 ^ 31

/-- Build a `CInt` from a small natural number. -/
def mkCInt (n : Nat) (h : n < 2 ^ 31) : CInt :=
  ⟨(n : Int), by omega, by exact_mod_cast h⟩

/-- The record type of `struct apple_gpu_info` from the header.  The owned
`char *name` string is modelled by its text; `uint64_t` fields become `Nat`
and `int64_t` becomes `Int`, with the 64-bit ranges stated by `wf`. -/
structure apple_gpu_info where
  name : String
  total_mem : Nat
  used_mem : Nat
  gpu_util : Int

/-- Range constraints imposed by the declared C types: `total_mem` and
`used_mem` are `uint64_t` (values in `[0, 2^64)`), `gpu_util` is `int64_t`
(values in `[-2^63, 2^63)`). -/
def apple_gpu_info.wf (r : apple_gpu_info) : Prop :=
  r.total_mem < 2 ^ 64 ∧ r.used_mem < 2 ^ 64 ∧
    -(2 ^ 63) ≤ r.gpu_util ∧ r.gpu_util < 2 ^ 63

instance (r : apple_gpu_info) : Decidable r.wf := by
  unfold apple_gpu_info.wf; infer_instance

/-- Modelled from the spec: the failure conditions of the query operation
(`the underlying OS facility is unavailable, permission is denied, or no
compatible device is found`), distinguished only by message text. -/
inductive FailureReason where
  | facilityUnavailable
  | permissionDenied
  | noDevice
deriving DecidableEq

/-- Modelled from the spec: the human-readable error description surfaced on
the single error channel; always a non-empty text. -/
def failureMessage : FailureReason → String
  | FailureReason.facilityUnavailable => "GPU facility unavailable"
  | FailureReason.permissionDenied => "permission denied"
  | FailureReason.noDevice => "no compatible GPU device found"

/-- Modelled from the spec: the host environment the query enumerates.  `ok`
says whether the OS facility is accessible; on success `devices` is the list
of device records the host exposes (a physical enumeration, hence fewer than
`2^31` entries so the count fits the C `int` channel); on failure `reason` is
the failure condition. -/
structure Host where
  ok : Bool
  devices : List apple_gpu_info
  reason : FailureReason
  devices_small : devices.length < 2 ^ 31
  devices_wf : ∀ d, d ∈ devices → d.wf

/-- Allocator state: the heap of live identifiers plus a fresh-identifier
counter. -/
structure Mem where
  live : Heap
  next : Nat

/-- The outputs of one call to the query operation: the `int` return status,
the `out_infos` channel (each record paired with the allocation identifier of
its owned `name` string, plus the identifier of the record sequence itself),
the `out_count` channel and the `out_err` channel (allocation identifier and
text of the error string). -/
structure QueryOut where
  status : Int
  infos : Option (List (Nat × apple_gpu_info) × Nat)
  count : Option CInt
  err : Option (Nat × String)

/-- Modelled from the spec: the success path of `apple_gpu_get_infos` (the
implementation is not in `src/`).  One name string is allocated per record,
then the record sequence itself; `out_count` receives the number of records,
`out_err` is untouched and the return status is `0`. -/
def querySuccess (m : Mem) (host : Host) : Mem × QueryOut :=
  let n := host.devices.length
  let names := (List.range n).map (fun i => m.next + i)
  let arr := m.next + n
  ({ live := names ++ arr :: m.live, next := m.next + n + 1 },
   { status := 0,
     infos := some (names.zip host.devices, arr),
     count := some (mkCInt n host.devices_small),
     err := none })

/-- Modelled from the spec: the failure path of `apple_gpu_get_infos` (the
implementation is not in `src/`).  A non-empty error description is allocated
on the `out_err` channel, the record channels are untouched, and a nonzero
status is returned. -/
def queryFailure (m : Mem) (host : Host) : Mem × QueryOut :=
  ({ live := m.next :: m.live, next := m.next + 1 },
   { status := -1,
     infos := none,
     count := none,
     err := some (m.next, failureMessage host.reason) })

/-- Modelled from the spec: `apple_gpu_get_infos` (its implementation is not
in `src/`).  It enumerates the host's devices, producing either the record
sequence with its count, or an error description, and signals which by the
returned status. -/
def apple_gpu_get_infos (m : Mem) (host : Host) : Mem × QueryOut :=
  if host.ok then querySuccess m host else queryFailure m host

/-- Modelled from the spec: `apple_gpu_free_infos` (its implementation is not
in `src/`).  For each index `i` in `[0, count)` it releases the owned name
string of record `i` — reading past the end of the sequence is out-of-bounds,
modelled as `none` — and then releases the record sequence itself.  A C
`for (i = 0; i < count; i++)` loop runs zero times for `count <= 0`, which
`Int.toNat` reproduces. -/
def apple_gpu_free_infos (h : Heap) (infos : List (Nat × apple_gpu_info))
    (arr : Nat) (count : CInt) : Option Heap :=
  if count.val.toNat ≤ infos.length then
    match freeNames h ((infos.take count.val.toNat).map Prod.fst) with
    | some h2 => heapFree h2 arr
    | none => none
  else none

/-- Modelled from the spec: `apple_gpu_free_error` (its implementation is not
in `src/`).  Releases the single error-string allocation. -/
def apple_gpu_free_error (h : Heap) (e : Nat) : Option Heap :=
  heapFree h e

/-- A sample record matching Scenario A of the spec. -/
def sampleInfo : apple_gpu_info :=
  { name := "Apple M-series GPU", total_mem := 8000000000,
    used_mem := 2000000000, gpu_util := 35 }

/-- A host exposing exactly one GPU (Scenario A). -/
def sampleHost : Host :=
  { ok := true, devices := [sampleInfo], reason := FailureReason.noDevice,
    devices_small := by decide,
    devices_wf := by intro d hd; simp at hd; subst hd; decide }

/-- A host whose GPU facility is inaccessible (Scenario B). -/
def failHost : Host :=
  { ok := false, devices := [], reason := FailureReason.facilityUnavailable,
    devices_small := by decide,
    devices_wf := by intro d hd; simp at hd }

/-- A host that succeeds with an empty device list (Scenario C). -/
def emptyHost : Host :=
  { ok := true, devices := [], reason := FailureReason.noDevice,
    devices_small := by decide,
    devices_wf := by intro d hd; simp at hd }

/-- The empty allocator state. -/
def m0 : Mem := { live := [], next := 0 }

/-- A negative C `int` value, representable in the count channel's type. -/
def cNegOne : CInt := ⟨-1, by decide, by decide⟩

/-- The count value `1` as a C `int`. -/
def cOne : CInt := mkCInt 1 (by decide)

/-- The count value `0` as a C `int`. -/
def cZero : CInt := mkCInt 0 (by decide)

/-- A record violating the conceptual invariant `used_mem <= total_mem`
while staying inside the declared 64-bit field ranges. -/
def badInfo : apple_gpu_info :=
  { name := "GPU", total_mem := 0, used_mem := 1, gpu_util := 0 }

/-- A host exposing the invariant-violating record. -/
def badHost : Host :=
  { ok := true, devices := [badInfo], reason := FailureReason.noDevice,
    devices_small := by decide,
    devices_wf := by intro d hd; simp at hd; subst hd; decide }

lemma heapFree_cons (a : Nat) (h : Heap) : heapFree (a :: h) a = some h := by
  simp [heapFree]

lemma wf_mk (nm : String) (t u : Nat) (g : Int) (h1 : t < 2 ^ 64)
    (h2 : u < 2 ^ 64) (h3 : -(2 ^ 63) ≤ g) (h4 : g < 2 ^ 63) :
    apple_gpu_info.wf ⟨nm, t, u, g⟩ :=
  ⟨h1, h2, h3, h4⟩

lemma freeNames_append (xs : List Nat) (h : Heap) :
    freeNames (xs ++ h) xs = some h := by
  induction xs with
  | nil => rfl
  | cons a rest ih =>
    have ha : a ∈ a :: (rest ++ h) := List.mem_cons_self a _
    simp only [List.cons_append, freeNames, heapFree, if_pos ha, List.erase_cons_head]
    exact ih

lemma free_infos_exact (live : Heap) (names : List Nat) (devs : List apple_gpu_info)
    (arr : Nat) (cnt : CInt) (hlen : names.length = devs.length)
    (hc : cnt.val = (devs.length : Int)) :
    apple_gpu_free_infos (names ++ arr :: live) (names.zip devs) arr cnt = some live := by
  have ht : cnt.val.toNat = devs.length := by rw [hc]; exact Int.toNat_natCast _
  have hzl : (names.zip devs).length = devs.length := by
    rw [List.length_zip, hlen, min_self]
  rw [apple_gpu_free_infos, ht, if_pos (le_of_eq hzl.symm),
    List.take_of_length_le (le_of_eq hzl), List.map_fst_zip _ _ (le_of_eq hlen),
    freeNames_append]
  exact heapFree_cons arr live

lemma query_success_eq (m : Mem) (host : Host) (hok : host.ok = true) :
    apple_gpu_get_infos m host = querySuccess m host := by
  simp [apple_gpu_get_infos, hok]

lemma query_failure_eq (m : Mem) (host : Host) (hfail : host.ok = false) :
    apple_gpu_get_infos m host = queryFailure m host := by
  simp [apple_gpu_get_infos, hfail]

lemma free_infos_of_query (m : Mem) (host : Host)
    (records : List (Nat × apple_gpu_info)) (arr : Nat) (cnt : CInt)
    (hinfos : (apple_gpu_get_infos m host).2.infos = some (records, arr))
    (hcnt : (apple_gpu_get_infos m host).2.count = some cnt) :
    apple_gpu_free_infos (apple_gpu_get_infos m host).1.live records arr cnt = some m.live := by
  by_cases hok : host.ok = true
  · rw [query_success_eq m host hok] at hinfos hcnt ⊢
    simp only [querySuccess, Option.some.injEq, Prod.mk.injEq] at hinfos hcnt
    obtain ⟨hrec, harr⟩ := hinfos
    subst hrec harr hcnt
    exact free_infos_exact m.live _ host.devices _ _ (by simp) (by simp [mkCInt])
  · rw [query_failure_eq m host (by simpa using hok)] at hinfos
    simp [queryFailure] at hinfos

lemma free_error_of_query (m : Mem) (host : Host) (e : Nat) (s : String)
    (herr : (apple_gpu_get_infos m host).2.err = some (e, s)) :
    apple_gpu_free_error (apple_gpu_get_infos m host).1.live e = some m.live := by
  by_cases hok : host.ok = true
  · rw [query_success_eq m host hok] at herr
    simp [querySuccess] at herr
  · rw [query_failure_eq m host (by simpa using hok)] at herr ⊢
    simp only [queryFailure, Option.some.injEq, Prod.mk.injEq] at herr
    obtain ⟨he, hs⟩ := herr
    subst he
    exact heapFree_cons m.next m.live

lemma free_infos_nonpos (h : Heap) (arr : Nat) (cnt : CInt)
    (hz : cnt.val ≤ 0) (hlive : arr ∈ h) :
    apple_gpu_free_infos h [] arr cnt = some (h.erase arr) := by
  have ht : cnt.val.toNat = 0 := by omega
  rw [apple_gpu_free_infos, ht]
  simp [freeNames, heapFree, hlive]

/-- C1: every call to `apple_gpu_get_infos` produces exactly one of the two
output channels — a record sequence on success or an error description on
failure, never both — and success versus failure is signalled by the `int`
return status, distinct from both output channels. -/
theorem query_channels_exclusive (m : Mem) (host : Host) :
    ((apple_gpu_get_infos m host).2.status = 0 ∧
      (apple_gpu_get_infos m host).2.infos.isSome = true ∧
      (apple_gpu_get_infos m host).2.err = none) ∨
    ((apple_gpu_get_infos m host).2.status ≠ 0 ∧
      (apple_gpu_get_infos m host).2.err.isSome = true ∧
      (apple_gpu_get_infos m host).2.infos = none) := by
  by_cases hok : host.ok = true
  · left
    rw [query_success_eq m host hok]
    simp [querySuccess]
  · right
    rw [query_failure_eq m host (by simpa using hok)]
    simp [queryFailure]

/-- C2: on success the value on the `out_count` channel equals the number of
records on the `out_infos` channel, and every index in `[0, count)` reads a
record without going out of bounds. -/
theorem query_count_consistent (m : Mem) (host : Host)
    (records : List (Nat × apple_gpu_info)) (arr : Nat) (cnt : CInt)
    (hinfos : (apple_gpu_get_infos m host).2.infos = some (records, arr))
    (hcnt : (apple_gpu_get_infos m host).2.count = some cnt) :
    cnt.val = (records.length : Int) ∧
    ∀ i : Nat, i < cnt.val.toNat → (records[i]?).isSome = true := by
  by_cases hok : host.ok = true
  · rw [query_success_eq m host hok] at hinfos hcnt
    simp only [querySuccess, Option.some.injEq, Prod.mk.injEq] at hinfos hcnt
    obtain ⟨hrec, harr⟩ := hinfos
    subst hrec harr hcnt
    have hlen : (((List.range host.devices.length).map
        (fun i => m.next + i)).zip host.devices).length = host.devices.length := by
      simp
    constructor
    · simp [mkCInt, hlen]
    · intro i hi
      have hi2 : i < host.devices.length := by
        simpa [mkCInt] using hi
      rw [List.getElem?_eq_getElem (by rw [hlen]; exact hi2)]
      rfl
  · rw [query_failure_eq m host (by simpa using hok)] at hinfos
    simp [queryFailure] at hinfos

/-- Witness for C2 at Scenario A: one device, count 1, index 0 accessible. -/
theorem query_count_consistent_witness :
    cOne.val = (([(0, sampleInfo)] : List (Nat × apple_gpu_info)).length : Int) :=
  (query_count_consistent m0 sampleHost [(0, sampleInfo)] 1 cOne rfl rfl).1

/-- C3: releasing a successful query result once with the returned sequence
and count releases the sequence allocation and every record's owned name
string, restoring exactly the pre-query heap — no leak, no double release. -/
theorem free_infos_roundtrip (m : Mem) (host : Host)
    (records : List (Nat × apple_gpu_info)) (arr : Nat) (cnt : CInt)
    (hinfos : (apple_gpu_get_infos m host).2.infos = some (records, arr))
    (hcnt : (apple_gpu_get_infos m host).2.count = some cnt) :
    apple_gpu_free_infos (apple_gpu_get_infos m host).1.live records arr cnt = some m.live :=
  free_infos_of_query m host records arr cnt hinfos hcnt

/-- Witness for C3 at Scenario A: the heap returns to its pre-query state. -/
theorem free_infos_roundtrip_witness :
    apple_gpu_free_infos (apple_gpu_get_infos m0 sampleHost).1.live
      [(0, sampleInfo)] 1 cOne = some m0.live :=
  free_infos_roundtrip m0 sampleHost [(0, sampleInfo)] 1 cOne rfl rfl

/-- C4: releasing with `count = 0` an empty-but-valid sequence is a safe
no-op: it does not fail, and it releases no record field — only the sequence
allocation itself is removed from the heap. -/
theorem free_infos_count_zero (h : Heap) (arr : Nat) (cnt : CInt)
    (hz : cnt.val = 0) (hlive : arr ∈ h) :
    apple_gpu_free_infos h [] arr cnt = some (h.erase arr) :=
  free_infos_nonpos h arr cnt (le_of_eq hz) hlive

/-- Witness for C4: count 0 on the empty sequence with allocation 5 live. -/
theorem free_infos_count_zero_witness :
    apple_gpu_free_infos [5] [] 5 cZero = some [] :=
  free_infos_count_zero [5] 5 cZero rfl (by decide)

/-- C5: releasing a failed query's error string once releases exactly that
allocation, restoring the pre-query heap, and its lifetime is independent of
the record channel, which is unused on failure. -/
theorem free_error_roundtrip (m : Mem) (host : Host) (e : Nat) (s : String)
    (herr : (apple_gpu_get_infos m host).2.err = some (e, s)) :
    apple_gpu_free_error (apple_gpu_get_infos m host).1.live e = some m.live ∧
    (apple_gpu_get_infos m host).2.infos = none := by
  by_cases hok : host.ok = true
  · rw [query_success_eq m host hok] at herr
    simp [querySuccess] at herr
  · refine ⟨free_error_of_query m host e s herr, ?hinfos⟩
    rw [query_failure_eq m host (by simpa using hok)]
    rfl

/-- Witness for C5 at Scenario B. -/
theorem free_error_roundtrip_witness :
    apple_gpu_free_error (apple_gpu_get_infos m0 failHost).1.live 0 = some m0.live ∧
    (apple_gpu_get_infos m0 failHost).2.infos = none :=
  free_error_roundtrip m0 failHost 0 "GPU facility unavailable" rfl

/-- C6: when the query fails, the status is nonzero, a non-empty error
description is produced on `out_err`, and the record channels are unused. -/
theorem query_failure_reports_error (m : Mem) (host : Host)
    (hfail : host.ok = false) :
    (apple_gpu_get_infos m host).2.status ≠ 0 ∧
    (∃ e s, (apple_gpu_get_infos m host).2.err = some (e, s) ∧ s ≠ "") ∧
    (apple_gpu_get_infos m host).2.infos = none ∧
    (apple_gpu_get_infos m host).2.count = none := by
  rw [query_failure_eq m host hfail]
  refine ⟨by norm_num [queryFailure], ⟨m.next, failureMessage host.reason, rfl, ?hne⟩, rfl, rfl⟩
  cases hr : host.reason <;> simp [failureMessage]

/-- Witness for C6 at Scenario B. -/
theorem query_failure_reports_error_witness :
    (apple_gpu_get_infos m0 failHost).2.status ≠ 0 ∧
    (∃ e s, (apple_gpu_get_infos m0 failHost).2.err = some (e, s) ∧ s ≠ "") ∧
    (apple_gpu_get_infos m0 failHost).2.infos = none ∧
    (apple_gpu_get_infos m0 failHost).2.count = none :=
  query_failure_reports_error m0 failHost rfl

/-- C7: the conceptual invariant `used_mem <= total_mem` is not enforced by
the contract: a successful query can deliver a well-typed record that
violates it, and the producing call still succeeds (status 0), so a
violation is a data-quality signal, not a failure of the operation. -/
theorem used_le_total_not_enforced :
    ∃ (m : Mem) (host : Host) (records : List (Nat × apple_gpu_info)) (arr : Nat),
      (apple_gpu_get_infos m host).2.status = 0 ∧
      (apple_gpu_get_infos m host).2.infos = some (records, arr) ∧
      ∃ p, p ∈ records ∧ p.2.wf ∧ p.2.total_mem < p.2.used_mem := by
  refine ⟨m0, badHost, [(0, badInfo)], 1, rfl, rfl, (0, badInfo), ?hm, ?hwf, ?hlt⟩
  · simp
  · decide
  · decide

/-- C8: `total_mem` and `used_mem` carry the full unsigned 64-bit range,
while `gpu_util` is a signed 64-bit integer: negative values are
representable (admitting a negative sentinel) and the type does not restrict
utilization to 0–100. -/
theorem field_type_ranges :
    (∀ r : apple_gpu_info, r.wf →
        r.total_mem < 2 ^ 64 ∧ r.used_mem < 2 ^ 64 ∧
          -(2 ^ 63) ≤ r.gpu_util ∧ r.gpu_util < 2 ^ 63) ∧
    (∀ v : Nat, v < 2 ^ 64 →
        (∃ r : apple_gpu_info, r.wf ∧ r.total_mem = v) ∧
        (∃ r : apple_gpu_info, r.wf ∧ r.used_mem = v)) ∧
    (∀ v : Int, -(2 ^ 63) ≤ v → v < 2 ^ 63 →
        ∃ r : apple_gpu_info, r.wf ∧ r.gpu_util = v) ∧
    (∃ r : apple_gpu_info, r.wf ∧ r.gpu_util < 0) ∧
    (∃ r : apple_gpu_info, r.wf ∧ 100 < r.gpu_util) := by
  refine ⟨fun r hr => hr, fun v hv => ?hmem, fun v h1 h2 => ?hutil, ?hneg, ?hbig⟩
  · exact ⟨⟨⟨"", v, 0, 0⟩, wf_mk "" v 0 0 hv (by decide) (by decide) (by decide), rfl⟩,
      ⟨⟨"", 0, v, 0⟩, wf_mk "" 0 v 0 (by decide) hv (by decide) (by decide), rfl⟩⟩
  · exact ⟨⟨"", 0, 0, v⟩, wf_mk "" 0 0 v (by decide) (by decide) h1 h2, rfl⟩
  · exact ⟨⟨"", 0, 0, -1⟩, by decide, by decide⟩
  · exact ⟨⟨"", 0, 0, 1000⟩, by decide, by decide⟩

/-- Witness for C8: the 8 GB value of Scenario A is representable in both
memory fields. -/
theorem field_type_ranges_witness :
    (∃ r : apple_gpu_info, r.wf ∧ r.total_mem = 8000000000) ∧
    (∃ r : apple_gpu_info, r.wf ∧ r.used_mem = 8000000000) :=
  field_type_ranges.2.1 8000000000 (by decide)

/-- C9: the release operations return `void`, so they cannot report failure;
on every valid input — a result actually produced by the query — a release
call succeeds and produces no output value. -/
theorem release_operations_total (m : Mem) (host : Host) :
    (∀ (records : List (Nat × apple_gpu_info)) (arr : Nat) (cnt : CInt),
        (apple_gpu_get_infos m host).2.infos = some (records, arr) →
        (apple_gpu_get_infos m host).2.count = some cnt →
        (apple_gpu_free_infos (apple_gpu_get_infos m host).1.live records arr cnt).isSome = true) ∧
    (∀ (e : Nat) (s : String),
        (apple_gpu_get_infos m host).2.err = some (e, s) →
        (apple_gpu_free_error (apple_gpu_get_infos m host).1.live e).isSome = true) := by
  constructor
  · intro records arr cnt hinfos hcnt
    rw [free_infos_of_query m host records arr cnt hinfos hcnt]
    rfl
  · intro e s herr
    rw [free_error_of_query m host e s herr]
    rfl

/-- Witness for C9: releasing the error string of Scenario B succeeds. -/
theorem release_operations_total_witness :
    (apple_gpu_free_error (apple_gpu_get_infos m0 failHost).1.live 0).isSome = true :=
  (release_operations_total m0 failHost).2 0 "GPU facility unavailable" rfl

/-- C10: the count exchanged at the boundary is a signed 32-bit C `int`:
every representable count is at most `2^31 - 1`, negative counts are
representable, and the release operation does not rule them out — with a
negative count it releases no record field and still succeeds. -/
theorem count_type_int_range :
    (∀ c : CInt, c.val ≤ 2 ^ 31 - 1) ∧
    (∃ c : CInt, c.val < 0) ∧
    (∀ (h : Heap) (arr : Nat) (cnt : CInt), cnt.val < 0 → arr ∈ h →
        apple_gpu_free_infos h [] arr cnt = some (h.erase arr)) ∧
    (∀ (m : Mem) (host : Host) (cnt : CInt),
        (apple_gpu_get_infos m host).2.count = some cnt →
        cnt.val ≤ 2 ^ 31 - 1) := by
  refine ⟨fun c => by have := c.lt_bound; omega, ⟨cNegOne, by decide⟩,
    fun h arr cnt hneg hlive => free_infos_nonpos h arr cnt (le_of_lt hneg) hlive,
    fun m host cnt hcnt => by have := cnt.lt_bound; omega⟩

/-- Witness for C10: a negative count on a valid empty sequence succeeds. -/
theorem count_type_int_range_witness :
    apple_gpu_free_infos [7] [] 7 cNegOne = some [] :=
  count_type_int_range.2.2.1 [7] 7 cNegOne (by decide) (by decide)
